import Mathlib

/-!
Verification development for the ICAO local PKD batch analysis pipeline
(service `ai-analysis`).  The definitions below are a shallow embedding of
the Python sources:

  * `app/services/extension_rules_engine.py`
  * `app/services/risk_scorer.py`
  * `app/services/anomaly_detector.py`
  * `app/services/issuer_profiler.py`
  * `app/services/feature_engineering.py` (issuer pre-aggregation)
  * `app/routers/analysis.py` (job controller, result writer)

Numbers are embedded as exact rationals.  Python `round(x, n)` applies
round-half-to-even at exact ties; the embedding uses the round-half-up
function of Mathlib.  Every concrete value evaluated in this development is
tie-free, where the two conventions agree, and the bound-style theorems hold
under either convention.
-/

namespace ICAOPkd

/-- Embedding of the dynamically typed values that reach a pandas row:
Python `None`, float NaN (how SQL NULL text/bool columns may surface),
booleans, strings and integers. -/
inductive PyVal where
  | none
  | nan
  | bool (b : Bool)
  | str (s : String)
  | int (n : Int)
deriving DecidableEq, Repr

/-- Python `str(v)` for the embedded values. -/
def pyStr : PyVal → String
  | .none => "None"
  | .nan => "nan"
  | .bool true => "True"
  | .bool false => "False"
  | .str s => s
  | .int n => toString n

/-- Python truthiness (`bool(v)`).  NaN is truthy. -/
def pyTruthy : PyVal → Bool
  | .none => false
  | .nan => true
  | .bool b => b
  | .str s => s ≠ ""
  | .int n => n ≠ 0

/-- Python `row.get(f) or ""` followed by `str(...)`: the string used by the
Python code when a field is read with an empty-string fallback. -/
def pyOrEmptyStr (v : PyVal) : String :=
  if pyTruthy v then pyStr v else ""

/-- Python `needle in hay` on strings (substring containment). -/
def strContains (hay needle : String) : Bool :=
  let h := hay.data
  let n := needle.data
  (List.range (h.length + 1)).any (fun i => n.isPrefixOf (h.drop i))

/-- Python `str.lower()` (ASCII case mapping). -/
def lowerStr (s : String) : String := String.mk (s.data.map Char.toLower)

/-- Python `str.upper()` (ASCII case mapping). -/
def upperStr (s : String) : String := String.mk (s.data.map Char.toUpper)

/-- Python `str.strip()`: whitespace removed from both ends. -/
def stripStr (s : String) : String :=
  String.mk (((s.data.dropWhile Char.isWhitespace).reverse.dropWhile
    Char.isWhitespace).reverse)

/-- Python `str.split(sep)` for a one-character separator. -/
def splitChars (sep : Char) : List Char → List (List Char)
  | [] => [[]]
  | c :: rest =>
      let r := splitChars sep rest
      if c = sep then [] :: r
      else
        match r with
        | [] => [[c]]
        | h :: t => (c :: h) :: t

/-- One certificate row of the loaded frame.  `publicKeySize`,
`daysUntilExpiry` and `validityDays` abstract the numeric/datetime columns:
`none` stands for a missing value (NaN in the frame, so every ordered
comparison against it is false), and `daysUntilExpiry` / `validityDays`
stand for the day differences `(not_after - now)` and
`(not_after - not_before)` that the Python code derives with pandas. -/
structure CertRow where
  certificateType : PyVal := .none
  countryCode : PyVal := .none
  signatureAlgorithm : PyVal := .none
  publicKeyAlgorithm : PyVal := .none
  publicKeySize : Option ℚ := Option.none
  keyUsage : PyVal := .none
  extendedKeyUsage : PyVal := .none
  subjectKeyIdentifier : PyVal := .none
  authorityKeyIdentifier : PyVal := .none
  crlDistributionPoints : PyVal := .none
  ocspResponderUrl : PyVal := .none
  isCa : PyVal := .none
  isSelfSigned : PyVal := .none
  icaoCompliant : PyVal := .none
  validationStatus : PyVal := .none
  subjectDn : PyVal := .none
  issuerDn : PyVal := .none
  daysUntilExpiry : Option ℚ := Option.none
  validityDays : Option ℚ := Option.none
deriving DecidableEq, Repr

/-- Embeds `row.get(field)` for the string-keyed field reads performed by the
extension rules engine (missing key gives `None`). -/
def getField (row : CertRow) : String → PyVal
  | "certificate_type" => row.certificateType
  | "key_usage" => row.keyUsage
  | "extended_key_usage" => row.extendedKeyUsage
  | "subject_key_identifier" => row.subjectKeyIdentifier
  | "authority_key_identifier" => row.authorityKeyIdentifier
  | "crl_distribution_points" => row.crlDistributionPoints
  | "ocsp_responder_url" => row.ocspResponderUrl
  | "is_ca" => row.isCa
  | _ => .none

/-- Embeds `_has_field` of extension_rules_engine.py: value present, not NaN and
not a blank string. -/
def has_field (row : CertRow) (field : String) : Bool :=
  match getField row field with
  | .none => false
  | .nan => false
  | .str s => stripStr s ≠ ""
  | _ => true

/-- Embeds `_safe_bool` of extension_rules_engine.py. -/
def safe_bool : PyVal → Bool
  | .none => false
  | .nan => true
  | .bool b => b
  | .int n => n ≠ 0
  | .str s => lowerStr s = "true" ∨ lowerStr s = "1" ∨ lowerStr s = "t" ∨ lowerStr s = "yes"

/-- Python `round(q, n)` over exact rationals (half-up at the ties that
Python breaks to even; see the file comment). -/
def pyRound (q : ℚ) (ndigits : ℕ) : ℚ :=
  ((round (q * 10 ^ ndigits) : ℤ) : ℚ) / 10 ^ ndigits

/-- One per-type entry of `EXPECTED_EXTENSIONS`. -/
structure ExtProfile where
  required : List String
  recommended : List String
  forbiddenIsCa : Option Bool
  requiredKeyUsageBits : List String
deriving DecidableEq, Repr

/-- The CSCA entry of `EXPECTED_EXTENSIONS`. -/
def CSCA_profile : ExtProfile :=
  { required := ["key_usage", "subject_key_identifier", "is_ca"]
    recommended := ["authority_key_identifier", "crl_distribution_points"]
    forbiddenIsCa := some false
    requiredKeyUsageBits := ["keyCertSign", "cRLSign"] }

/-- The DSC entry of `EXPECTED_EXTENSIONS`. -/
def DSC_profile : ExtProfile :=
  { required := ["key_usage", "authority_key_identifier"]
    recommended := ["crl_distribution_points", "ocsp_responder_url"]
    forbiddenIsCa := some true
    requiredKeyUsageBits := ["digitalSignature"] }

/-- The MLSC entry of `EXPECTED_EXTENSIONS`. -/
def MLSC_profile : ExtProfile :=
  { required := ["extended_key_usage"]
    recommended := ["authority_key_identifier", "subject_key_identifier"]
    forbiddenIsCa := Option.none
    requiredKeyUsageBits := [] }

/-- The DSC_NC entry of `EXPECTED_EXTENSIONS`. -/
def DSC_NC_profile : ExtProfile :=
  { required := []
    recommended := ["authority_key_identifier", "key_usage"]
    forbiddenIsCa := Option.none
    requiredKeyUsageBits := [] }

/-- Embeds `EXPECTED_EXTENSIONS` of extension_rules_engine.py (the only forbidden
flag that occurs is `is_ca`). -/
def EXPECTED_EXTENSIONS (s : String) : Option ExtProfile :=
  if s = "CSCA" then some CSCA_profile
  else if s = "DSC" then some DSC_profile
  else if s = "MLSC" then some MLSC_profile
  else if s = "DSC_NC" then some DSC_NC_profile
  else Option.none

/-- Embeds `EXPECTED_EXTENSIONS.get(cert_type, EXPECTED_EXTENSIONS.get("DSC_NC"))`
with `cert_type = row.get("certificate_type") or ""`. -/
def profileFor (row : CertRow) : ExtProfile :=
  (EXPECTED_EXTENSIONS (pyOrEmptyStr row.certificateType)).getD
    ((EXPECTED_EXTENSIONS "DSC_NC").getD DSC_NC_profile)

/-- Result record of `check_extension_compliance`.  `violationsDetail`
pairs are (rule, severity); the localized message strings are carried
verbatim. -/
structure ComplianceResult where
  missingRequired : List String
  missingRecommended : List String
  forbiddenViolations : List String
  keyUsageViolations : List String
  structuralScore : ℚ
  violationsDetail : List (String × String)
deriving DecidableEq, Repr

/-- Required-extension check of the loop in `check_extension_compliance`:
`is_ca` is checked through `_safe_bool`, every other field through
`_has_field`. -/
def requiredMisses (row : CertRow) (field : String) : Bool :=
  if field = "is_ca" then ¬ safe_bool row.isCa else ¬ has_field row field

/-- Embeds `check_extension_compliance` of extension_rules_engine.py. -/
def check_extension_compliance (row : CertRow) : ComplianceResult :=
  let profile := profileFor row
  let missingRequired := profile.required.filter (requiredMisses row)
  let missingRecommended := profile.recommended.filter (fun f => ¬ has_field row f)
  let forbiddenViolations :=
    match profile.forbiddenIsCa with
    | some v => if safe_bool row.isCa = v then ["is_ca"] else []
    | Option.none => []
  let keyUsageStr := lowerStr (pyOrEmptyStr row.keyUsage)
  let keyUsageViolations :=
    profile.requiredKeyUsageBits.filter (fun bit => ¬ strContains keyUsageStr (lowerStr bit))
  let requiredDetail := missingRequired.map (fun f =>
    if f = "is_ca" then ("Required: " ++ f, "CRITICAL")
    else ("Required extension missing: " ++ f, "HIGH"))
  let recommendedDetail := missingRecommended.map
    (fun f => ("Recommended extension missing: " ++ f, "MEDIUM"))
  let forbiddenDetail :=
    match profile.forbiddenIsCa with
    | some v => forbiddenViolations.map
        (fun f => ("Forbidden: " ++ f ++ "=" ++ (if v then "True" else "False"), "CRITICAL"))
    | Option.none => []
  let bitsDetail := keyUsageViolations.map
    (fun b => ("Missing key usage bit: " ++ b, "HIGH"))
  let score :=
    (missingRequired.length : ℚ) * 0.25 + (forbiddenViolations.length : ℚ) * 0.30
      + (keyUsageViolations.length : ℚ) * 0.15 + (missingRecommended.length : ℚ) * 0.05
  { missingRequired := missingRequired
    missingRecommended := missingRecommended
    forbiddenViolations := forbiddenViolations
    keyUsageViolations := keyUsageViolations
    structuralScore := pyRound (min score 1) 4
    violationsDetail := requiredDetail ++ recommendedDetail ++ forbiddenDetail ++ bitsDetail }

/-- Embeds `classify_anomaly` of anomaly_detector.py. -/
def classify_anomaly (score : ℚ) : String :=
  if score ≥ 0.7 then "ANOMALOUS" else if score ≥ 0.3 then "SUSPICIOUS" else "NORMAL"

/-- Embeds `classify_risk` of risk_scorer.py. -/
def classify_risk (score : ℚ) : String :=
  if score ≥ 76 then "CRITICAL" else if score ≥ 51 then "HIGH"
  else if score ≥ 26 then "MEDIUM" else "LOW"

/-- Embeds `classify_forensic_risk` of risk_scorer.py. -/
def classify_forensic_risk (score : ℚ) : String :=
  if score ≥ 60 then "CRITICAL" else if score ≥ 40 then "HIGH"
  else if score ≥ 20 then "MEDIUM" else "LOW"

/-! ## DN helpers (issuer_profiler.py) -/

/-- First match of the pattern slash-C-equals-two-letters
(`/C=([A-Z]\x7b2\x7d)`, IGNORECASE) scanning left to right. -/
def findSlashC : List Char → Option String
  | [] => Option.none
  | x :: rest =>
      match x :: rest with
      | '/' :: c :: '=' :: a :: b :: _ =>
          if (c = 'C' ∨ c = 'c') ∧ a.isAlpha ∧ b.isAlpha then
            some (String.mk [a.toUpper, b.toUpper])
          else findSlashC rest
      | _ => findSlashC rest

/-- Match whitespace-star, then C-equals (IGNORECASE), then two letters,
at the current position. -/
def matchCEq (l : List Char) : Option String :=
  match l.dropWhile (fun c => c.isWhitespace) with
  | c :: '=' :: a :: b :: _ =>
      if (c = 'C' ∨ c = 'c') ∧ a.isAlpha ∧ b.isAlpha then
        some (String.mk [a.toUpper, b.toUpper])
      else Option.none
  | _ => Option.none

/-- Matches of the comma-anchored alternative after any comma, scanning
left to right. -/
def findCommaC : List Char → Option String
  | [] => Option.none
  | ',' :: rest =>
      match matchCEq rest with
      | some r => some r
      | Option.none => findCommaC rest
  | _ :: rest => findCommaC rest

/-- Embeds `_extract_country_from_dn` of issuer_profiler.py: the slash pattern is
tried first anywhere in the string, then the comma/anchor pattern. -/
def extract_country_from_dn (dn : String) : String :=
  if dn = "" then ""
  else
    match findSlashC dn.toList with
    | some r => r
    | Option.none =>
        match matchCEq dn.toList with
        | some r => r
        | Option.none => (findCommaC dn.toList).getD ""

/-- Embeds `_count_dn_fields` of issuer_profiler.py. -/
def count_dn_fields (dn : String) : ℕ :=
  if dn = "" then 0
  else
    let t := (stripStr dn).data
    if t.head? = some '/' then (splitChars '/' t).countP (fun p => '=' ∈ p)
    else (splitChars ',' t).countP (fun p => '=' ∈ p)

/-! ## Risk scorer (risk_scorer.py)

Per-row embedding of the loop body of `compute_risk_scores`: one function
per risk category, the findings list in emission order, and the two
composite scores.  Findings are (category, severity) pairs; the localized
message strings carried by the Python dicts are not modelled. -/

/-- Embeds `ALGORITHM_RISK.get(sig_alg, 15)`. -/
def ALGORITHM_RISK (s : String) : ℚ :=
  if s = "sha1WithRSAEncryption" then 40
  else if s = "ecdsa-with-SHA1" then 40
  else if s = "sha256WithRSAEncryption" then 5
  else if s = "ecdsa-with-SHA256" then 5
  else if s = "sha384WithRSAEncryption" then 0
  else if s = "ecdsa-with-SHA384" then 0
  else if s = "sha512WithRSAEncryption" then 0
  else if s = "ecdsa-with-SHA512" then 0
  else if s = "id-RSASSA-PSS" then 2
  else 15

/-- Category 1 (algorithm, 0 to 40). -/
def alg_risk (row : CertRow) : ℚ :=
  ALGORITHM_RISK (pyOrEmptyStr row.signatureAlgorithm)

/-- Category 2 (key size, 0 to 40).  A missing size is NaN in the frame,
for which every ordered comparison is false, so the rsa/ec branches fall
through to 0. -/
def ks_risk (row : CertRow) : ℚ :=
  let pubAlg := lowerStr (pyOrEmptyStr row.publicKeyAlgorithm)
  if strContains pubAlg "rsa" then
    match row.publicKeySize with
    | some k => if k < 2048 then 40 else if k < 3072 then 10 else if k < 4096 then 3 else 0
    | Option.none => 0
  else if strContains pubAlg "ec" then
    match row.publicKeySize with
    | some k => if k < 256 then 35 else if k < 384 then 5 else 0
    | Option.none => 0
  else 15

/-- Category 3 (ICAO compliance, 0 to 20). -/
def compliance_risk (row : CertRow) : ℚ :=
  let v := row.icaoCompliant
  if v = PyVal.bool false ∨ lowerStr (pyStr v) = "false" ∨ lowerStr (pyStr v) = "0" then 20
  else if v = PyVal.none then 5
  else 0

/-- Category 4 (validity, 0 to 15), over the day difference
`not_after - now`; `none` is the missing / NaT branch. -/
def validity_risk (row : CertRow) : ℚ :=
  match row.daysUntilExpiry with
  | some d => if d < 0 then 15 else if d < 30 then 10 else if d < 90 then 5 else 0
  | Option.none => 5

/-- Category 5 (extensions, clamped to 15). -/
def ext_risk (row : CertRow) : ℚ :=
  min ((if ¬ pyTruthy row.crlDistributionPoints then 5 else 0)
      + (if ¬ pyTruthy row.authorityKeyIdentifier then 5 else 0)
      + (if ¬ pyTruthy row.subjectKeyIdentifier then 3 else 0)
      + (if ¬ pyTruthy row.ocspResponderUrl then 2 else 0)) 15

/-- Category 6 (anomaly): `round(anomaly_scores[i] * 15, 1)`. -/
def anomaly_risk (a : ℚ) : ℚ := pyRound (a * 15) 1

/-- Category 7 (issuer reputation): `round(issuer_scores[i] * 15, 1)`. -/
def issuer_risk (s : ℚ) : ℚ := pyRound (s * 15) 1

/-- Category 8 (structural consistency): `round(structural_scores[i] * 20, 1)`. -/
def structural_risk (s : ℚ) : ℚ := pyRound (s * 20) 1

/-- Category 9 (temporal pattern, clamped to 10), over the validity-days
difference; `none` is the missing-endpoint branch. -/
def temporal_risk (row : CertRow) : ℚ :=
  let base : ℚ :=
    match row.validityDays with
    | some v =>
        let ct := pyOrEmptyStr row.certificateType
        if ct = "DSC" ∧ v > 365 * 15 then 8
        else if ct = "CSCA" ∧ v < 365 then 6
        else if v < 30 then 5
        else if v > 365 * 30 then 7
        else 0
    | Option.none => 0
  min base 10

/-- Category 10 (DN consistency, clamped to 10) together with the
country-mismatch finding that the loop appends while computing it. -/
def dn_eval (row : CertRow) : ℚ × List (String × String) :=
  let subjectDn := pyOrEmptyStr row.subjectDn
  let country := pyOrEmptyStr row.countryCode
  let mismatch : ℚ × List (String × String) :=
    if subjectDn ≠ "" ∧ country ≠ "" then
      let sc := extract_country_from_dn subjectDn
      if sc ≠ "" ∧ sc ≠ country then (5, [("dn_consistency", "MEDIUM")]) else (0, [])
    else (0, [])
  let fieldRisk : ℚ :=
    if subjectDn ≠ "" then
      (if count_dn_fields subjectDn < 2 then 3 else 0)
        + (if count_dn_fields subjectDn > 10 then 2 else 0)
    else 0
  (min (mismatch.1 + fieldRisk) 10, mismatch.2)

/-- The `dn_risk` value alone. -/
def dn_risk (row : CertRow) : ℚ := (dn_eval row).1

/-- The findings list of the loop body, in emission order.  `a`, `s`, `i`
are the anomaly, structural and issuer scores of the row. -/
def risk_findings (row : CertRow) (a s i : ℚ) : List (String × String) :=
  (if alg_risk row > 0 then
      (if alg_risk row ≥ 30 then [("algorithm", "CRITICAL")] else []) else [])
  ++ (if ks_risk row > 0 then
      (if ks_risk row ≥ 30 then [("key_size", "CRITICAL")] else []) else [])
  ++ (if compliance_risk row > 0 then
      (if compliance_risk row ≥ 15 then [("compliance", "HIGH")] else []) else [])
  ++ (if validity_risk row > 0 then
      (if validity_risk row ≥ 15 then [("validity", "HIGH")] else []) else [])
  ++ (if anomaly_risk a > 1 then
      (if anomaly_risk a ≥ 10 then [("anomaly", "HIGH")] else []) else [])
  ++ (if issuer_risk i > 1 then
      (if issuer_risk i ≥ 10 then [("issuer_reputation", "MEDIUM")] else []) else [])
  ++ (if structural_risk s > 1 then
      (if structural_risk s ≥ 15 then [("structural_consistency", "HIGH")] else []) else [])
  ++ (if temporal_risk row > 1 then
      (if temporal_risk row ≥ 6 then [("temporal_pattern", "MEDIUM")] else []) else [])
  ++ (dn_eval row).2

/-- Legacy composite: the six original categories, clamped to 100. -/
def risk_score (row : CertRow) (a : ℚ) : ℚ :=
  min (alg_risk row + ks_risk row + compliance_risk row + validity_risk row
      + ext_risk row + anomaly_risk a) 100

/-- Raw ten-category total. -/
def forensic_raw (row : CertRow) (a s i : ℚ) : ℚ :=
  alg_risk row + ks_risk row + compliance_risk row + validity_risk row
    + ext_risk row + anomaly_risk a + issuer_risk i + structural_risk s
    + temporal_risk row + dn_risk row

/-- Forensic composite: `min(raw_total / 200 * 100, 100)`. -/
def forensic_score (row : CertRow) (a s i : ℚ) : ℚ :=
  min (forensic_raw row a s i / 200 * 100) 100

/-! ## Result writer (analysis.py, `_save_results`)

Per-row stored values: the score is rounded to 6 decimals, the label is
classified from the unrounded combined score. -/

/-- Embeds `round(float(combined_scores[i]), 6)` as stored in `anomaly_score`. -/
def saved_anomaly_score (combined : ℚ) : ℚ := pyRound combined 6

/-- Embeds `classify_anomaly(combined_scores[i])` as stored in `anomaly_label`. -/
def saved_anomaly_label (combined : ℚ) : String := classify_anomaly combined

/-! ## Anomaly detector (anomaly_detector.py)

The feature matrix is a list of rows of rationals.  The numpy primitives
used by `_rule_based_scoring` and `_normalize_scores` (median over an
axis, sort, min-max) are embedded below; the Isolation-Forest / LOF fit of
the large-subset path is external library code and is not modelled. -/

/-- Insertion step of an ascending sort. -/
def insertQ (x : ℚ) : List ℚ → List ℚ
  | [] => [x]
  | y :: ys => if x ≤ y then x :: y :: ys else y :: insertQ x ys

/-- Ascending sort (`np.sort`). -/
def sortQ : List ℚ → List ℚ
  | [] => []
  | x :: xs => insertQ x (sortQ xs)

/-- Embeds `np.median`: middle element, or the mean of the two middle elements. -/
def medianQ (l : List ℚ) : ℚ :=
  let s := sortQ l
  let n := s.length
  if n = 0 then 0
  else if n % 2 = 1 then s.getD (n / 2) 0
  else (s.getD (n / 2 - 1) 0 + s.getD (n / 2) 0) / 2

/-- Embeds `np.mean` (0 on the empty list, matching no use site). -/
def meanQ (l : List ℚ) : ℚ := l.sum / l.length

/-- Transpose of a row-major matrix (ragged tails are truncated; every
matrix considered here is rectangular). -/
def transposeQ : List (List ℚ) → List (List ℚ)
  | [] => []
  | [r] => r.map (fun x => [x])
  | r :: rs => List.zipWith (fun x col => x :: col) r (transposeQ rs)

/-- Column MAD with the `mad[mad < 1e-10] = 1.0` replacement. -/
def colMAD (c : List ℚ) : ℚ :=
  let m := medianQ c
  let d := medianQ (c.map (fun x => |x - m|))
  if d < 1 / 10 ^ 10 then 1 else d

/-- Embeds `_rule_based_scoring`: per row, mean of the top-10 robust deviations,
divided by 5 and capped at 1. -/
def rule_based_scoring (m : List (List ℚ)) : List ℚ :=
  let cols := transposeQ m
  let meds := cols.map medianQ
  let mads := cols.map colMAD
  m.map (fun row =>
    let devs := (row.zip (meds.zip mads)).map (fun p => |p.1 - p.2.1| / p.2.2)
    let sorted := sortQ devs
    let top := sorted.drop (sorted.length - 10)
    min (meanQ top / 5) 1)

/-- Embeds `np.min` over a (nonempty) array; 0 on the empty list. -/
def minQ : List ℚ → ℚ
  | [] => 0
  | x :: xs => xs.foldr min x

/-- Embeds `np.max` over a (nonempty) array; 0 on the empty list. -/
def maxQ : List ℚ → ℚ
  | [] => 0
  | x :: xs => xs.foldr max x

/-- Embeds `_normalize_scores`: min-max to the unit interval, all-zero when the
range is below 1e-10. -/
def normalize_scores (scores : List ℚ) : List ℚ :=
  let smin := minQ scores
  let smax := maxQ scores
  if smax - smin < 1 / 10 ^ 10 then scores.map (fun _ => 0)
  else scores.map (fun x => (x - smin) / (smax - smin))

/-- Embeds `combined = 0.6 * if_scores + 0.4 * lof_scores`, per row. -/
def combined_score (ifScore lofScore : ℚ) : ℚ := 0.6 * ifScore + 0.4 * lofScore

/-- Embeds `TYPE_CONFIG` minimum sample counts, with the DSC entry as default. -/
def min_samples (s : String) : ℕ :=
  if s = "CSCA" then 30 else if s = "DSC" then 30
  else if s = "DSC_NC" then 30 else if s = "MLSC" then 10 else 30

/-- The small-subset branch of `_fit_predict_by_type` for one type subset:
when the subset is below `min_samples`, the rule-based scores of the raw
subset features are written to combined, isolation-forest and LOF alike.
`Option.none` stands for the large-subset branch (external ML fit). -/
def small_subset_scores (certType : String) (typeFeatures : List (List ℚ)) :
    Option (List ℚ × List ℚ × List ℚ) :=
  if typeFeatures.length < min_samples certType then
    let s := rule_based_scoring typeFeatures
    some (s, s, s)
  else Option.none

/-- Exact square root on the rationals whose numerator and denominator are
perfect squares (which covers every value it is applied to below);
`Nat.sqrt` truncates elsewhere. -/
def ratSqrt (q : ℚ) : ℚ := (Nat.sqrt q.num.toNat : ℚ) / (Nat.sqrt q.den : ℚ)

/-- Per-column standardisation of sklearn StandardScaler as the spec
describes the fallback input: zero mean, unit variance, with scale 1 on a
zero-variance column. -/
def scaleCol (c : List ℚ) : List ℚ :=
  let mu := meanQ c
  let v := meanQ (c.map (fun x => (x - mu) ^ 2))
  let s := if v = 0 then 1 else ratSqrt v
  c.map (fun x => (x - mu) / s)

/-- Embeds `StandardScaler().fit_transform` over a matrix. -/
def standardizeMatrix (m : List (List ℚ)) : List (List ℚ) :=
  transposeQ ((transposeQ m).map scaleCol)

/-! ## Issuer profiler (issuer_profiler.py) and the issuer pre-aggregation
of feature_engineering.py

Issuer groups are lists of rows sharing one issuer DN.  DN-keyed columns
are assumed to carry strings or missing values, which is what the text
columns of the input store deliver. -/

/-- Embeds `str(x).lower() in ("true", "1")` applied to `icao_compliant`. -/
def icao_ok_indicator (v : PyVal) : Bool :=
  lowerStr (pyStr v) = "true" ∨ lowerStr (pyStr v) = "1"

/-- Embeds `str(x).upper() in ("EXPIRED", "EXPIRED_VALID")` applied to
`validation_status`. -/
def expired_indicator (v : PyVal) : Bool :=
  upperStr (pyStr v) = "EXPIRED" ∨ upperStr (pyStr v) = "EXPIRED_VALID"

/-- Mean of the ICAO-ok indicator over a group. -/
def icao_ok_rate (g : List CertRow) : ℚ :=
  (g.countP (fun r => icao_ok_indicator r.icaoCompliant) : ℚ) / g.length

/-- Mean of the expired indicator over a group. -/
def expired_rate (g : List CertRow) : ℚ :=
  (g.countP (fun r => expired_indicator r.validationStatus) : ℚ) / g.length

/-- Embeds `anomaly_proxy` of `build_issuer_profiles`:
`round(1.0 - icao_ok + expired * 0.5, 4)` (issuer_profiler.py). -/
def profiler_anomaly_proxy (g : List CertRow) : ℚ :=
  pyRound (1 - icao_ok_rate g + expired_rate g * 0.5) 4

/-- Embeds `anomaly_rate` of the issuer pre-aggregation in `engineer_features`:
`round(1.0 - icao_ok + expired * 0.5, 4)` (feature_engineering.py). -/
def feat_issuer_anomaly_rate (g : List CertRow) : ℚ :=
  pyRound (1 - icao_ok_rate g + expired_rate g * 0.5) 4

/-- The per-issuer proxy as the spec words it:
`clamp(1 - icao_ok_rate + 0.5 * expired_rate, 0, 1)`.  Stated only to be
compared against the two source-derived definitions above. -/
def spec_clamped_proxy (g : List CertRow) : ℚ :=
  max 0 (min (1 - icao_ok_rate g + expired_rate g * 0.5) 1)

/-- Deduplication keeping first occurrences (pandas key/mode order). -/
def firstDedup : List String → List String
  | [] => []
  | x :: xs => x :: firstDedup (xs.filter (fun y => y ≠ x))
termination_by l => l.length
decreasing_by
  simp_wf
  exact Nat.lt_succ_of_le (List.length_filter_le _ _)

/-- Embeds `value_counts().index[0]`: most frequent value, first-seen tie break,
empty string on the empty list. -/
def modeStr (l : List String) : String :=
  match firstDedup l with
  | [] => ""
  | c :: cs => cs.foldl (fun best x => if l.count x > l.count best then x else best) c

/-- Non-missing string values of a PyVal projection (pandas value_counts
and nunique drop missing values). -/
def strValues (g : List CertRow) (f : CertRow → PyVal) : List String :=
  g.filterMap (fun r => match f r with | PyVal.str s => some s | _ => Option.none)

/-- Embeds `public_key_size.dropna()`. -/
def keySizes (g : List CertRow) : List ℚ := g.filterMap (·.publicKeySize)

/-- Sample variance (pandas `.std()` uses ddof = 1). -/
def sampleVarQ (l : List ℚ) : ℚ :=
  (l.map (fun x => (x - meanQ l) ^ 2)).sum / ((l.length : ℚ) - 1)

/-- Per-issuer profile record of `build_issuer_profiles` (the fields the
scorer reads). -/
structure IssuerProfile where
  certCount : ℕ
  typeDiversity : ℕ
  dominantAlgorithm : String
  algorithmDiversity : ℕ
  avgKeySize : ℚ
  stdKeySize : ℚ
  countryCount : ℕ
  dominantCountry : String
  complianceRate : ℚ
  expiredRateRounded : ℚ
  anomalyProxy : ℚ
deriving DecidableEq, Repr

/-- The profile computed for one issuer group.  `stdKeySize` goes through
`ratSqrt` (exact on perfect squares; only its sign and threshold
comparisons are consumed by the theorems below). -/
def mkProfile (g : List CertRow) : IssuerProfile :=
  let ks := keySizes g
  { certCount := g.length
    typeDiversity := (firstDedup (strValues g (·.certificateType))).length
    dominantAlgorithm := modeStr (strValues g (·.signatureAlgorithm))
    algorithmDiversity := (firstDedup (strValues g (·.signatureAlgorithm))).length
    avgKeySize := if ks.length > 0 then meanQ ks else 0
    stdKeySize := if ks.length > 1 then ratSqrt (sampleVarQ ks) else 0
    countryCount := (firstDedup (strValues g (·.countryCode))).length
    dominantCountry := modeStr (strValues g (·.countryCode))
    complianceRate := pyRound (icao_ok_rate g) 4
    expiredRateRounded := pyRound (expired_rate g) 4
    anomalyProxy := profiler_anomaly_proxy g }

/-- Issuer keys: distinct issuer DNs that are present and non-blank
(`safe_isna` and the strip test of the source). -/
def issuerKeys (df : List CertRow) : List String :=
  firstDedup (df.filterMap (fun r =>
    match r.issuerDn with
    | PyVal.str s => if stripStr s ≠ "" then some s else Option.none
    | _ => Option.none))

/-- Embeds `build_issuer_profiles`. -/
def build_issuer_profiles (df : List CertRow) : List (String × IssuerProfile) :=
  (issuerKeys df).map (fun k =>
    (k, mkProfile (df.filter (fun r => r.issuerDn = PyVal.str k))))

/-- Embeds `profiles.get(issuer_dn)`. -/
def lookupProfile : List (String × IssuerProfile) → String → Option IssuerProfile
  | [], _ => Option.none
  | q :: rest, s => if s = q.1 then some q.2 else lookupProfile rest s

/-- Additive per-row scoring of `compute_issuer_anomaly_scores` once a
profile was found, clamped to 1. -/
def issuer_profile_score (p : IssuerProfile) (row : CertRow) : ℚ :=
  let rare : ℚ := if p.certCount < 3 then 0.15 else if p.certCount < 10 then 0.05 else 0
  let ksDev : ℚ :=
    match row.publicKeySize with
    | some k =>
        if p.avgKeySize > 0 ∧ p.stdKeySize > 0 ∧ k > 0 then
          let z := |k - p.avgKeySize| / p.stdKeySize
          if z > 3 then 0.2 else if z > 2 then 0.1 else 0
        else 0
    | Option.none => 0
  let sigAlg := pyOrEmptyStr row.signatureAlgorithm
  let algMismatch : ℚ :=
    if sigAlg ≠ "" ∧ sigAlg ≠ p.dominantAlgorithm ∧ p.algorithmDiversity ≤ 2 then 0.15 else 0
  let proxy := p.anomalyProxy * 0.2
  let country := pyOrEmptyStr row.countryCode
  let countryMismatch : ℚ :=
    if country ≠ "" ∧ country ≠ p.dominantCountry ∧ p.countryCount = 1 then 0.15 else 0
  min (rare + ksDev + algMismatch + proxy + countryMismatch) 1

/-- Per-row branch of `compute_issuer_anomaly_scores`: missing issuer DN
or missing profile give the fixed 0.3. -/
def issuer_row_score (profiles : List (String × IssuerProfile)) (row : CertRow) : ℚ :=
  if ¬ pyTruthy row.issuerDn ∨ row.issuerDn = PyVal.nan then 0.3
  else
    match row.issuerDn with
    | PyVal.str s =>
        match lookupProfile profiles s with
        | some p => issuer_profile_score p row
        | Option.none => 0.3
    | _ => 0.3

/-- Embeds `compute_issuer_anomaly_scores` over the frame (all-zero when no
profile was built). -/
def compute_issuer_anomaly_scores (df : List CertRow) : List ℚ :=
  let profiles := build_issuer_profiles df
  if profiles.isEmpty then df.map (fun _ => 0)
  else df.map (issuer_row_score profiles)

/-! ## Job controller (analysis.py)

`trigger_analysis` and the worker `_run_analysis` share the job-state
record under one lock, but the RUNNING check of the trigger and the
RUNNING assignment of the worker are two separate critical sections.  The
embedding is a small-step system over two concurrent trigger calls A and
B: each atomic step is one lock-protected region. -/

inductive JStatus where
  | idle | running | completed | failed
deriving DecidableEq, Repr

inductive CallerPC where
  | pending | accepted | rejected
deriving DecidableEq, Repr

inductive WorkerPC where
  | notSpawned | spawned | ranFirstBlock
deriving DecidableEq, Repr

structure CtrlState where
  status : JStatus
  callerA : CallerPC
  callerB : CallerPC
  workerA : WorkerPC
  workerB : WorkerPC
deriving DecidableEq, Repr

inductive CtrlAction where
  | checkA | checkB | beginA | beginB
deriving DecidableEq, Repr

/-- One atomic step.  `check` is the locked region of `trigger_analysis`
(read status, reject with 409 when RUNNING, otherwise accept and spawn the
worker thread).  `begin` is the first locked region of `_run_analysis`
(set status to RUNNING). -/
def ctrl_step (s : CtrlState) : CtrlAction → Option CtrlState
  | .checkA =>
      if s.callerA = .pending then
        some (if s.status = .running then { s with callerA := .rejected }
              else { s with callerA := .accepted, workerA := .spawned })
      else Option.none
  | .checkB =>
      if s.callerB = .pending then
        some (if s.status = .running then { s with callerB := .rejected }
              else { s with callerB := .accepted, workerB := .spawned })
      else Option.none
  | .beginA =>
      if s.workerA = .spawned then
        some { s with status := .running, workerA := .ranFirstBlock }
      else Option.none
  | .beginB =>
      if s.workerB = .spawned then
        some { s with status := .running, workerB := .ranFirstBlock }
      else Option.none

/-- Run a schedule of atomic steps. -/
def ctrl_run : CtrlState → List CtrlAction → Option CtrlState
  | s, [] => some s
  | s, a :: rest =>
      match ctrl_step s a with
      | some t => ctrl_run t rest
      | Option.none => Option.none

/-- Process start state: IDLE, both calls outstanding. -/
def ctrl_init : CtrlState :=
  { status := .idle, callerA := .pending, callerB := .pending,
    workerA := .notSpawned, workerB := .notSpawned }

/-! ## Sequential run trace (analysis.py, `_run_analysis` and
`_save_results`)

Snapshot list of the job-state record after each locked mutation of a
run over `n` loaded rows, plus the number of row upserts performed.
The pipeline stage results themselves do not influence the control
flow, so they are not parameters. -/

structure JobSnap where
  status : JStatus
  progress : ℚ
  total : ℕ
  processed : ℕ
deriving DecidableEq, Repr

/-- Batch upper bounds of `range(0, n, batch_size)` with
`end = min(start + batch_size, n)` (writer loop); `bs ≥ 1`. -/
def batchEnds (n bs : ℕ) : List ℕ :=
  (List.range ((n + bs - 1) / bs)).map (fun i => min ((i + 1) * bs) n)

/-- Job-state snapshots of one run, in mutation order, and the number of
row upserts.  The first snapshot is the IDLE process-start state. -/
def run_trace (n bs : ℕ) : List JobSnap × ℕ :=
  let s0 : JobSnap := ⟨.idle, 0, 0, 0⟩
  let s1 : JobSnap := ⟨.running, 0, 0, 0⟩
  let s2 : JobSnap := ⟨.running, 1/10, n, 0⟩
  if n = 0 then ([s0, s1, s2, ⟨.completed, 1, 0, 0⟩], 0)
  else
    let mids : List JobSnap :=
      [⟨.running, 0.25, n, 0⟩, ⟨.running, 0.45, n, 0⟩, ⟨.running, 0.55, n, 0⟩,
       ⟨.running, 0.65, n, 0⟩, ⟨.running, 0.75, n, 0⟩]
    let batches := (batchEnds n bs).map
      (fun (e : ℕ) =>
        { status := .running, progress := 0.75 + 0.25 * (e : ℚ) / (n : ℚ),
          total := n, processed := e : JobSnap })
    (([s0, s1, s2] ++ mids ++ batches) ++ [⟨.completed, 1, n, n⟩], n)

/-! ## Helper lemmas -/

theorem pyRound_fixed {q : ℚ} {n : ℕ} {z : ℤ} (h : q * 10 ^ n = z) :
    pyRound q n = q := by
  unfold pyRound
  rw [h, round_intCast, ← h]
  exact mul_div_cancel_right₀ q (by positivity)

theorem round_monoQ {a b : ℚ} (h : a ≤ b) : round a ≤ round b := by
  rw [round_eq, round_eq]
  exact Int.floor_le_floor (by linarith)

theorem pyRound_monotone {a b : ℚ} (n : ℕ) (h : a ≤ b) :
    pyRound a n ≤ pyRound b n := by
  unfold pyRound
  have hm : round (a * 10 ^ n) ≤ round (b * 10 ^ n) :=
    round_monoQ (mul_le_mul_of_nonneg_right h (by positivity))
  have hc : ((round (a * 10 ^ n) : ℤ) : ℚ) ≤ ((round (b * 10 ^ n) : ℤ) : ℚ) :=
    Int.cast_le.mpr hm
  exact (div_le_div_right (by positivity)).mpr hc

theorem pyRound_zero (n : ℕ) : pyRound 0 n = 0 := by
  unfold pyRound
  simp

theorem pyRound_nonneg {q : ℚ} (n : ℕ) (h : 0 ≤ q) : 0 ≤ pyRound q n := by
  have := pyRound_monotone n h
  rwa [pyRound_zero] at this

theorem pyRound_abs_sub (q : ℚ) (n : ℕ) :
    |pyRound q n - q| ≤ 1 / (2 * 10 ^ n) := by
  unfold pyRound
  have h := abs_sub_round (q * 10 ^ n)
  rw [abs_sub_comm] at h
  have hpow : (0 : ℚ) < 10 ^ n := by positivity
  have key : ((round (q * 10 ^ n) : ℤ) : ℚ) / 10 ^ n - q
      = (((round (q * 10 ^ n) : ℤ) : ℚ) - q * 10 ^ n) / 10 ^ n := by
    field_simp
    ring
  rw [key, abs_div, abs_of_pos hpow]
  calc |((round (q * 10 ^ n) : ℤ) : ℚ) - q * 10 ^ n| / 10 ^ n
      ≤ (1 / 2) / 10 ^ n := by
        exact (div_le_div_right hpow).mpr h
    _ = 1 / (2 * 10 ^ n) := by ring

/-! ## C1: single-flight start -/

/-- C1: the RUNNING check of `trigger_analysis` and the RUNNING assignment
of `_run_analysis` sit in two separate critical sections, so there is an
interleaving of two concurrent start calls in which both pass the check
before either worker runs: both calls are accepted and both workers
perform the transition to RUNNING.  The second conjunct shows the check
does reject a call that arrives after a worker has set RUNNING, so the
violation is exactly the check-then-act window. -/
theorem c1_start_race :
    (ctrl_run ctrl_init [.checkA, .checkB, .beginA, .beginB]
      = some { status := .running, callerA := .accepted, callerB := .accepted,
               workerA := .ranFirstBlock, workerB := .ranFirstBlock })
    ∧ (ctrl_run ctrl_init [.checkA, .beginA, .checkB]
      = some { status := .running, callerA := .accepted, callerB := .rejected,
               workerA := .ranFirstBlock, workerB := .notSpawned }) := by
  exact ⟨rfl, rfl⟩

/-! ## C9: empty population -/

/-- C9: with zero loaded rows the run goes IDLE to RUNNING to COMPLETED,
sets `total_certificates = 0`, reaches progress 1, and performs no row
upsert, for every batch size. -/
theorem c9_empty_population (bs : ℕ) :
    run_trace 0 bs
      = ([⟨.idle, 0, 0, 0⟩, ⟨.running, 0, 0, 0⟩, ⟨.running, 1/10, 0, 0⟩,
          ⟨.completed, 1, 0, 0⟩], 0)
    ∧ (run_trace 0 bs).1.map JobSnap.status
      = [.idle, .running, .running, .completed]
    ∧ ((run_trace 0 bs).1.getLast?.map JobSnap.progress = some 1
        ∧ (run_trace 0 bs).1.getLast?.map JobSnap.total = some 0)
    ∧ (run_trace 0 bs).2 = 0 := by
  refine ⟨rfl, rfl, ⟨rfl, rfl⟩, rfl⟩

/-- Witness for C9 at a concrete batch size. -/
theorem c9_empty_population_witness :
    (run_trace 0 100).2 = 0
      ∧ (run_trace 0 100).1.map JobSnap.status
        = [.idle, .running, .running, .completed] :=
  ⟨(c9_empty_population 100).2.2.2, (c9_empty_population 100).2.1⟩

/-! ## C6 and C10: extension rules engine -/

theorem pyRound4_min_score (a b c d : ℕ) :
    pyRound (min ((a : ℚ) * 0.25 + (b : ℚ) * 0.30 + (c : ℚ) * 0.15 + (d : ℚ) * 0.05) 1) 4
      = min ((a : ℚ) * 0.25 + (b : ℚ) * 0.30 + (c : ℚ) * 0.15 + (d : ℚ) * 0.05) 1 := by
  apply pyRound_fixed
    (z := min (2500 * (a : ℤ) + 3000 * (b : ℤ) + 1500 * (c : ℤ) + 500 * (d : ℤ)) 10000)
  rw [min_mul_of_nonneg _ _ (show (0 : ℚ) ≤ 10 ^ 4 by norm_num)]
  push_cast
  congr 1
  · ring
  · norm_num

/-- The structural score always equals the clamped weighted sum of the
four violation-list lengths. -/
theorem structuralScore_eq (row : CertRow) :
    (check_extension_compliance row).structuralScore
      = min (((check_extension_compliance row).missingRequired.length : ℚ) * 0.25
          + ((check_extension_compliance row).forbiddenViolations.length : ℚ) * 0.30
          + ((check_extension_compliance row).keyUsageViolations.length : ℚ) * 0.15
          + ((check_extension_compliance row).missingRecommended.length : ℚ) * 0.05) 1 :=
  pyRound4_min_score _ _ _ _

/-- The S1 row of the spec: weak DSC, `not_after` 10 days ahead, no CRL
distribution point, AKI, SKI or OCSP URL. -/
def s1row : CertRow :=
  { certificateType := .str "DSC"
    countryCode := .str "UT"
    signatureAlgorithm := .str "sha1WithRSAEncryption"
    publicKeyAlgorithm := .str "RSA"
    publicKeySize := some 1024
    keyUsage := .str "digitalSignature"
    isCa := .bool false
    icaoCompliant := .bool false
    daysUntilExpiry := some 10 }

theorem s1row_missingRequired :
    (check_extension_compliance s1row).missingRequired = ["authority_key_identifier"] := by
  decide

theorem s1row_missingRecommended :
    (check_extension_compliance s1row).missingRecommended
      = ["crl_distribution_points", "ocsp_responder_url"] := by decide

theorem s1row_forbidden : (check_extension_compliance s1row).forbiddenViolations = [] := by
  decide

theorem s1row_keyUsage : (check_extension_compliance s1row).keyUsageViolations = [] := by
  decide

theorem s1row_structural : (check_extension_compliance s1row).structuralScore = 0.35 := by
  rw [structuralScore_eq, s1row_missingRequired, s1row_missingRecommended,
    s1row_forbidden, s1row_keyUsage]
  norm_num

theorem s1row_alg : alg_risk s1row = 40 := by
  simp [alg_risk, ALGORITHM_RISK, pyOrEmptyStr, pyTruthy, pyStr, s1row]

theorem s1row_ks : ks_risk s1row = 40 := by
  have h : strContains (lowerStr (pyOrEmptyStr (PyVal.str "RSA"))) "rsa" = true := by decide
  simp only [ks_risk, s1row, h, if_true]
  norm_num

theorem s1row_compliance : compliance_risk s1row = 20 := by
  simp [compliance_risk, pyStr, s1row]

theorem s1row_validity : validity_risk s1row = 10 := by
  norm_num [validity_risk, s1row]

theorem s1row_ext : ext_risk s1row = 15 := by
  norm_num [ext_risk, pyTruthy, s1row]

/-! ## C2: scenario S1 -/

/-- C2 counterexample: on the S1 row the legacy risk score is indeed 100,
but the extension engine reports structural score 0.35, not the 0.10 the
claim states: `authority_key_identifier` is a required extension for DSC
and it is absent, which adds 0.25 on top of the two missing recommended
extensions. -/
theorem c2_s1_counterexample :
    risk_score s1row 0 = 100
      ∧ (check_extension_compliance s1row).structuralScore ≠ 0.10 := by
  constructor
  · have h0 : anomaly_risk 0 = 0 := by
      unfold anomaly_risk
      rw [show (0 : ℚ) * 15 = 0 by norm_num, pyRound_zero]
    unfold risk_score
    rw [s1row_alg, s1row_ks, s1row_compliance, s1row_validity, s1row_ext, h0]
    norm_num
  · rw [s1row_structural]
    norm_num

/-- C2 as amended: on the S1 row, for every nonnegative anomaly score, the
legacy risk score is `min(40+40+20+10+15+anomaly, 100) = 100` with level
CRITICAL, and the extension engine returns
`structural_score = 0.25*1 + 0.05*2 = 0.35`: the missing required
extension is the AKI, the two missing recommended ones are the CRL
distribution point and the OCSP URL. -/
theorem c2_s1_amended (a : ℚ) (ha : 0 ≤ a) :
    risk_score s1row a = 100
      ∧ classify_risk (risk_score s1row a) = "CRITICAL"
      ∧ (check_extension_compliance s1row).missingRequired = ["authority_key_identifier"]
      ∧ (check_extension_compliance s1row).missingRecommended
          = ["crl_distribution_points", "ocsp_responder_url"]
      ∧ (check_extension_compliance s1row).structuralScore = 0.35 := by
  have hanom : 0 ≤ anomaly_risk a := pyRound_nonneg 1 (by positivity)
  have hrisk : risk_score s1row a = 100 := by
    unfold risk_score
    rw [s1row_alg, s1row_ks, s1row_compliance, s1row_validity, s1row_ext]
    rw [min_eq_right (by linarith)]
  refine ⟨hrisk, ?_, s1row_missingRequired, s1row_missingRecommended, s1row_structural⟩
  rw [hrisk]
  norm_num [classify_risk]

/-- Witness for the amended C2 at anomaly score 0. -/
theorem c2_s1_amended_witness :
    risk_score s1row 0 = 100
      ∧ (check_extension_compliance s1row).structuralScore = 0.35 :=
  ⟨(c2_s1_amended 0 le_rfl).1, (c2_s1_amended 0 le_rfl).2.2.2.2⟩

/-! ## C5: finding thresholds and severities -/

/-- The S1 row with `not_after` in the past, so that the validity category
reaches its 15-point bar. -/
def s1expired : CertRow := { s1row with daysUntilExpiry := some (-1) }

theorem s1expired_alg : alg_risk s1expired = 40 := by
  simp [alg_risk, ALGORITHM_RISK, pyOrEmptyStr, pyTruthy, pyStr, s1expired, s1row]

theorem s1expired_ks : ks_risk s1expired = 40 := by
  have h : strContains (lowerStr (pyOrEmptyStr (PyVal.str "RSA"))) "rsa" = true := by decide
  simp only [ks_risk, s1expired, s1row, h, if_true]
  norm_num

theorem s1expired_compliance : compliance_risk s1expired = 20 := by
  simp [compliance_risk, pyStr, s1expired, s1row]

theorem s1expired_validity : validity_risk s1expired = 15 := by
  norm_num [validity_risk, s1expired, s1row]

theorem s1expired_temporal : temporal_risk s1expired = 0 := by
  norm_num [temporal_risk, s1expired, s1row]

theorem s1expired_dn : dn_eval s1expired = (0, []) := by
  norm_num [dn_eval, pyOrEmptyStr, pyTruthy, s1expired, s1row]

/-- The whole findings list of the expired S1 row at zero anomaly,
structural and issuer scores. -/
theorem s1expired_findings :
    risk_findings s1expired 0 0 0
      = [("algorithm", "CRITICAL"), ("key_size", "CRITICAL"),
         ("compliance", "HIGH"), ("validity", "HIGH")] := by
  have h0 : pyRound ((0 : ℚ) * 15) 1 = 0 := by
    rw [show (0 : ℚ) * 15 = 0 by norm_num, pyRound_zero]
  have h0s : pyRound ((0 : ℚ) * 20) 1 = 0 := by
    rw [show (0 : ℚ) * 20 = 0 by norm_num, pyRound_zero]
  unfold risk_findings
  rw [s1expired_alg, s1expired_ks, s1expired_compliance, s1expired_validity,
    s1expired_temporal, s1expired_dn]
  unfold anomaly_risk issuer_risk structural_risk
  rw [h0, h0s]
  norm_num

/-- C5 counterexample: a row whose compliance category is 20 and whose
validity category is 15 gets both findings with severity HIGH; no
CRITICAL finding is emitted for either category, contradicting the
claimed CRITICAL severity at those bars. -/
theorem c5_severity_counterexample :
    compliance_risk s1expired ≥ 15 ∧ validity_risk s1expired ≥ 15
      ∧ ("compliance", "HIGH") ∈ risk_findings s1expired 0 0 0
      ∧ ("validity", "HIGH") ∈ risk_findings s1expired 0 0 0
      ∧ ("compliance", "CRITICAL") ∉ risk_findings s1expired 0 0 0
      ∧ ("validity", "CRITICAL") ∉ risk_findings s1expired 0 0 0 := by
  rw [s1expired_findings, s1expired_compliance, s1expired_validity]
  refine ⟨by norm_num, by norm_num, by decide, by decide, by decide, by decide⟩

/-- C5 as amended: for every row, independently per category, a finding
is emitted when the compliance category reaches 15 and when the validity
category reaches 15, each with severity HIGH (not CRITICAL); the
algorithm and key-size categories at 30 do emit CRITICAL findings. -/
theorem c5_severity_amended (row : CertRow) (a s i : ℚ) :
    (compliance_risk row ≥ 15 → ("compliance", "HIGH") ∈ risk_findings row a s i)
      ∧ (validity_risk row ≥ 15 → ("validity", "HIGH") ∈ risk_findings row a s i)
      ∧ (alg_risk row ≥ 30 → ("algorithm", "CRITICAL") ∈ risk_findings row a s i)
      ∧ (ks_risk row ≥ 30 → ("key_size", "CRITICAL") ∈ risk_findings row a s i) := by
  refine ⟨fun h1 => ?_, fun h2 => ?_, fun h3 => ?_, fun h4 => ?_⟩
  · have e3 : (if compliance_risk row > 0 then
        (if compliance_risk row ≥ 15 then [(("compliance", "HIGH") : String × String)]
          else []) else []) = [("compliance", "HIGH")] := by
      rw [if_pos (by linarith), if_pos h1]
    unfold risk_findings
    rw [e3]
    simp [List.mem_append]
  · have e4 : (if validity_risk row > 0 then
        (if validity_risk row ≥ 15 then [(("validity", "HIGH") : String × String)]
          else []) else []) = [("validity", "HIGH")] := by
      rw [if_pos (by linarith), if_pos h2]
    unfold risk_findings
    rw [e4]
    simp [List.mem_append]
  · have e1 : (if alg_risk row > 0 then
        (if alg_risk row ≥ 30 then [(("algorithm", "CRITICAL") : String × String)]
          else []) else []) = [("algorithm", "CRITICAL")] := by
      rw [if_pos (by linarith), if_pos h3]
    unfold risk_findings
    rw [e1]
    simp [List.mem_append]
  · have e2 : (if ks_risk row > 0 then
        (if ks_risk row ≥ 30 then [(("key_size", "CRITICAL") : String × String)]
          else []) else []) = [("key_size", "CRITICAL")] := by
      rw [if_pos (by linarith), if_pos h4]
    unfold risk_findings
    rw [e2]
    simp [List.mem_append]

/-- Witness for the amended C5 on the expired S1 row, discharging each
per-category condition there. -/
theorem c5_severity_amended_witness :
    ("compliance", "HIGH") ∈ risk_findings s1expired 0 0 0
      ∧ ("validity", "HIGH") ∈ risk_findings s1expired 0 0 0
      ∧ ("algorithm", "CRITICAL") ∈ risk_findings s1expired 0 0 0
      ∧ ("key_size", "CRITICAL") ∈ risk_findings s1expired 0 0 0 := by
  have h := c5_severity_amended s1expired 0 0 0
  exact ⟨h.1 (by rw [s1expired_compliance]; norm_num),
    h.2.1 (by rw [s1expired_validity]),
    h.2.2.1 (by rw [s1expired_alg]; norm_num),
    h.2.2.2 (by rw [s1expired_ks]; norm_num)⟩

/-! ## C7: stored label versus stored score -/

/-- A combined score just below the 0.3 bar that 6-decimal rounding
carries up to 0.3. -/
def c7score : ℚ := 29999999 / 100000000

/-- C7 counterexample: the writer stores the label classified from the
unrounded combined score, so for combined = 0.29999999 the stored label
is NORMAL while the stored (6-decimal rounded) score is 0.3, which
classifies as SUSPICIOUS. -/
theorem c7_label_counterexample :
    saved_anomaly_label c7score = "NORMAL"
      ∧ saved_anomaly_score c7score = 3/10
      ∧ classify_anomaly (3/10) = "SUSPICIOUS"
      ∧ saved_anomaly_label c7score ≠ classify_anomaly (saved_anomaly_score c7score) := by
  have hs : saved_anomaly_score c7score = 3/10 := by
    unfold saved_anomaly_score pyRound c7score
    norm_num [round_eq]
  have hl : saved_anomaly_label c7score = "NORMAL" := by
    unfold saved_anomaly_label classify_anomaly c7score
    norm_num
  have hc : classify_anomaly (3/10) = "SUSPICIOUS" := by
    norm_num [classify_anomaly]
  refine ⟨hl, hs, hc, ?_⟩
  rw [hl, hs, hc]
  decide

/-- C7 as amended: the stored label is the classification of the computed
(pre-rounding) combined score; it also equals the classification of the
stored rounded score whenever the combined score is strictly further than
half of the rounding step (1/2000000) from each of the 0.3 and 0.7
thresholds. -/
theorem c7_label_amended (c : ℚ)
    (h3 : |c - 3/10| > 1/2000000) (h7 : |c - 7/10| > 1/2000000) :
    saved_anomaly_label c = classify_anomaly c
      ∧ classify_anomaly (saved_anomaly_score c) = saved_anomaly_label c := by
  refine ⟨rfl, ?_⟩
  have hb : |saved_anomaly_score c - c| ≤ 1/2000000 := by
    have := pyRound_abs_sub c 6
    calc |saved_anomaly_score c - c| ≤ 1 / (2 * 10 ^ 6) := this
      _ = 1/2000000 := by norm_num
  have hb1 := (abs_le.mp hb).1
  have hb2 := (abs_le.mp hb).2
  rcases lt_abs.mp h3 with h3a | h3a <;> rcases lt_abs.mp h7 with h7a | h7a <;>
    unfold saved_anomaly_label classify_anomaly <;> split_ifs <;>
    first
      | rfl
      | (exfalso; linarith)

/-- Witness for the amended C7 at combined score one half. -/
theorem c7_label_amended_witness :
    classify_anomaly (saved_anomaly_score (1/2)) = saved_anomaly_label (1/2) :=
  (c7_label_amended (1/2) (by rw [abs_of_pos] <;> norm_num)
    (by rw [abs_of_neg] <;> norm_num)).2

/-! ## C4: issuer anomaly proxy -/

/-- A one-row issuer group that is non-compliant and expired. -/
def c4group : List CertRow :=
  [{ icaoCompliant := .bool false, validationStatus := .str "EXPIRED" }]

theorem c4group_rates : icao_ok_rate c4group = 0 ∧ expired_rate c4group = 1 := by
  constructor
  · have h : (c4group.countP (fun r => icao_ok_indicator r.icaoCompliant)) = 0 := by decide
    unfold icao_ok_rate
    rw [h]
    norm_num
  · have h : (c4group.countP (fun r => expired_indicator r.validationStatus)) = 1 := by
      decide
    unfold expired_rate
    rw [h]
    norm_num [c4group]

/-- C4 counterexample: both the issuer profiler and the feature engineer
compute the proxy without a clamp; on a group that is fully non-compliant
and fully expired the proxy is 1.5, while the clamped value of the claim
is 1. -/
theorem c4_proxy_counterexample :
    profiler_anomaly_proxy c4group = 3/2
      ∧ feat_issuer_anomaly_rate c4group = 3/2
      ∧ spec_clamped_proxy c4group = 1
      ∧ profiler_anomaly_proxy c4group > 1 := by
  have h1 : (1 : ℚ) - icao_ok_rate c4group + expired_rate c4group * 0.5 = 3/2 := by
    rw [c4group_rates.1, c4group_rates.2]
    norm_num
  have hp : profiler_anomaly_proxy c4group = 3/2 := by
    unfold profiler_anomaly_proxy
    rw [h1]
    exact pyRound_fixed (z := 15000) (by norm_num)
  refine ⟨hp, ?_, ?_, by rw [hp]; norm_num⟩
  · unfold feat_issuer_anomaly_rate
    rw [h1]
    exact pyRound_fixed (z := 15000) (by norm_num)
  · unfold spec_clamped_proxy
    rw [h1]
    norm_num

theorem icao_ok_rate_bounds (g : List CertRow) :
    0 ≤ icao_ok_rate g ∧ icao_ok_rate g ≤ 1 := by
  unfold icao_ok_rate
  constructor
  · positivity
  · rcases Nat.eq_zero_or_pos g.length with h | h
    · rw [h]
      norm_num
    · rw [div_le_one (by exact_mod_cast h)]
      exact_mod_cast List.countP_le_length _

theorem expired_rate_bounds (g : List CertRow) :
    0 ≤ expired_rate g ∧ expired_rate g ≤ 1 := by
  unfold expired_rate
  constructor
  · positivity
  · rcases Nat.eq_zero_or_pos g.length with h | h
    · rw [h]
      norm_num
    · rw [div_le_one (by exact_mod_cast h)]
      exact_mod_cast List.countP_le_length _

/-- C4 as amended: the profiler and the feature engineer compute the same
per-issuer proxy, namely `round(1 - icao_ok_rate + 0.5 * expired_rate, 4)`
with no clamp; it lies in `[0, 1.5]` and can exceed 1. -/
theorem c4_proxy_amended (g : List CertRow) (_hg : g ≠ []) :
    profiler_anomaly_proxy g = feat_issuer_anomaly_rate g
      ∧ profiler_anomaly_proxy g
          = pyRound (1 - icao_ok_rate g + expired_rate g * 0.5) 4
      ∧ 0 ≤ profiler_anomaly_proxy g ∧ profiler_anomaly_proxy g ≤ 3/2 := by
  refine ⟨rfl, rfl, ?_, ?_⟩
  · apply pyRound_nonneg
    have h1 := (icao_ok_rate_bounds g).2
    have h2 := (expired_rate_bounds g).1
    linarith
  · have h1 := (icao_ok_rate_bounds g).1
    have h2 := (expired_rate_bounds g).2
    have hle : 1 - icao_ok_rate g + expired_rate g * 0.5 ≤ 3/2 := by linarith
    calc profiler_anomaly_proxy g
        ≤ pyRound (3/2) 4 := pyRound_monotone 4 hle
      _ = 3/2 := pyRound_fixed (z := 15000) (by norm_num)

/-- Witness for the amended C4 on the one-row group. -/
theorem c4_proxy_amended_witness :
    profiler_anomaly_proxy c4group = feat_issuer_anomaly_rate c4group
      ∧ 0 ≤ profiler_anomaly_proxy c4group ∧ profiler_anomaly_proxy c4group ≤ 3/2 :=
  ⟨(c4_proxy_amended c4group (by simp [c4group])).1,
   (c4_proxy_amended c4group (by simp [c4group])).2.2.1,
   (c4_proxy_amended c4group (by simp [c4group])).2.2.2⟩

/-! ## C6: structural score formula and the is_ca checks -/

/-- C6: the structural score is the clamped weighted sum of the four
violation-list lengths; on a CSCA row the required check for `is_ca`
fails exactly when the row boolean is not true and the forbidden check
fires exactly when the boolean equals the forbidden value False (on a
DSC row, True); consequently every CSCA row with `is_ca` false scores at
least 0.55. -/
theorem c6_structural_formula (row : CertRow) :
    ((check_extension_compliance row).structuralScore
      = min (((check_extension_compliance row).missingRequired.length : ℚ) * 0.25
          + ((check_extension_compliance row).forbiddenViolations.length : ℚ) * 0.30
          + ((check_extension_compliance row).keyUsageViolations.length : ℚ) * 0.15
          + ((check_extension_compliance row).missingRecommended.length : ℚ) * 0.05) 1)
    ∧ (pyOrEmptyStr row.certificateType = "CSCA" →
        (("is_ca" ∈ (check_extension_compliance row).missingRequired ↔ ¬ safe_bool row.isCa)
        ∧ ("is_ca" ∈ (check_extension_compliance row).forbiddenViolations
            ↔ safe_bool row.isCa = false)
        ∧ (¬ safe_bool row.isCa →
            0.55 ≤ (check_extension_compliance row).structuralScore)))
    ∧ (pyOrEmptyStr row.certificateType = "DSC" →
        ("is_ca" ∈ (check_extension_compliance row).forbiddenViolations
          ↔ safe_bool row.isCa = true)) := by
  refine ⟨structuralScore_eq row, ?_, ?_⟩
  · intro hct
    have hp : profileFor row = CSCA_profile := by
      simp [profileFor, hct, EXPECTED_EXTENSIONS]
    have hmr : "is_ca" ∈ (check_extension_compliance row).missingRequired
        ↔ ¬ safe_bool row.isCa := by
      simp only [check_extension_compliance, hp, CSCA_profile, List.mem_filter]
      simp [requiredMisses]
    have hfv : "is_ca" ∈ (check_extension_compliance row).forbiddenViolations
        ↔ safe_bool row.isCa = false := by
      simp only [check_extension_compliance, hp, CSCA_profile]
      by_cases hb : safe_bool row.isCa = false
      · simp [hb]
      · simp [hb]
    refine ⟨hmr, hfv, ?_⟩
    intro hca
    have h1 : 1 ≤ (check_extension_compliance row).missingRequired.length :=
      List.length_pos_of_mem (hmr.mpr hca)
    have h2 : (check_extension_compliance row).forbiddenViolations = ["is_ca"] := by
      simp only [check_extension_compliance, hp, CSCA_profile]
      simp [Bool.not_eq_true] at hca
      simp [hca]
    rw [structuralScore_eq row]
    have h1q : (1 : ℚ) ≤ ((check_extension_compliance row).missingRequired.length : ℚ) := by
      exact_mod_cast h1
    have h3 : (0:ℚ) ≤ ((check_extension_compliance row).keyUsageViolations.length : ℚ) := by
      positivity
    have h4 : (0:ℚ) ≤ ((check_extension_compliance row).missingRecommended.length : ℚ) := by
      positivity
    rw [h2]
    refine le_min ?_ (by norm_num)
    simp only [List.length_singleton, Nat.cast_one]
    nlinarith [h1q, h3, h4]
  · intro hct
    have hp : profileFor row = DSC_profile := by
      simp [profileFor, hct, EXPECTED_EXTENSIONS]
    simp only [check_extension_compliance, hp, DSC_profile]
    by_cases hb : safe_bool row.isCa = true
    · simp [hb]
    · simp [hb]

/-- Witness for C6 on a CSCA row with `is_ca` false. -/
theorem c6_structural_formula_witness :
    0.55 ≤ (check_extension_compliance
      { certificateType := PyVal.str "CSCA", isCa := PyVal.bool false }).structuralScore := by
  have h := (c6_structural_formula
    { certificateType := PyVal.str "CSCA", isCa := PyVal.bool false }).2.1 (by decide)
  exact h.2.2 (by decide)

/-! ## C10: unknown certificate types fall back to the DSC_NC profile -/

/-- C10: a row whose certificate type is not one of the four known values
(including empty and missing) is checked against the DSC_NC profile, so
it has no required, forbidden or key-usage violations, its missing
recommended list is a sublist of the two DSC_NC recommendations, and its
structural score is at most 0.10. -/
theorem c10_unknown_type_fallback (row : CertRow)
    (h : pyOrEmptyStr row.certificateType ∉ ["CSCA", "DSC", "DSC_NC", "MLSC"]) :
    (check_extension_compliance row).missingRequired = []
      ∧ (check_extension_compliance row).forbiddenViolations = []
      ∧ (check_extension_compliance row).keyUsageViolations = []
      ∧ (check_extension_compliance row).missingRecommended
          ⊆ ["authority_key_identifier", "key_usage"]
      ∧ (check_extension_compliance row).structuralScore ≤ 0.10 := by
  simp only [List.mem_cons, List.not_mem_nil, or_false, not_or] at h
  obtain ⟨h1, h2, h3, h4⟩ := h
  have hp : profileFor row = DSC_NC_profile := by
    simp [profileFor, EXPECTED_EXTENSIONS, h1, h2, h3, h4]
  have hmr : (check_extension_compliance row).missingRequired = [] := by
    simp [check_extension_compliance, hp, DSC_NC_profile]
  have hfv : (check_extension_compliance row).forbiddenViolations = [] := by
    simp [check_extension_compliance, hp, DSC_NC_profile]
  have hkuv : (check_extension_compliance row).keyUsageViolations = [] := by
    simp [check_extension_compliance, hp, DSC_NC_profile]
  have hsub : (check_extension_compliance row).missingRecommended
      ⊆ ["authority_key_identifier", "key_usage"] := by
    simp only [check_extension_compliance, hp, DSC_NC_profile]
    exact List.filter_subset' _
  refine ⟨hmr, hfv, hkuv, hsub, ?_⟩
  have hlen : (check_extension_compliance row).missingRecommended.length ≤ 2 := by
    simp only [check_extension_compliance, hp, DSC_NC_profile]
    calc (List.filter _ ["authority_key_identifier", "key_usage"]).length
        ≤ (["authority_key_identifier", "key_usage"] : List String).length :=
          List.length_filter_le _ _
      _ = 2 := rfl
  rw [structuralScore_eq row, hmr, hfv, hkuv]
  have hq : ((check_extension_compliance row).missingRecommended.length : ℚ) ≤ 2 := by
    exact_mod_cast hlen
  calc min (((0:ℚ)) * 0.25 + (0:ℚ) * 0.30 + (0:ℚ) * 0.15
        + ((check_extension_compliance row).missingRecommended.length : ℚ) * 0.05) 1
      ≤ ((0:ℚ)) * 0.25 + (0:ℚ) * 0.30 + (0:ℚ) * 0.15
        + ((check_extension_compliance row).missingRecommended.length : ℚ) * 0.05 :=
        min_le_left _ _
    _ ≤ 0.10 := by nlinarith

/-- Witness for C10 on a row with certificate type LC. -/
theorem c10_unknown_type_fallback_witness :
    (check_extension_compliance { certificateType := PyVal.str "LC" }).missingRequired = []
      ∧ (check_extension_compliance
          { certificateType := PyVal.str "LC" }).structuralScore ≤ 0.10 := by
  have h := c10_unknown_type_fallback { certificateType := PyVal.str "LC" } (by decide)
  exact ⟨h.1, h.2.2.2.2⟩

/-! ## C3: small-subset fallback -/

theorem mem_insertQ {y x : ℚ} {l : List ℚ} : y ∈ insertQ x l ↔ y = x ∨ y ∈ l := by
  induction l with
  | nil => simp [insertQ]
  | cons a t ih =>
      unfold insertQ
      split_ifs with h
      · simp
      · simp only [List.mem_cons, ih]
        tauto

theorem mem_sortQ {y : ℚ} {l : List ℚ} : y ∈ sortQ l ↔ y ∈ l := by
  induction l with
  | nil => simp [sortQ]
  | cons a t ih =>
      unfold sortQ
      rw [mem_insertQ]
      simp [ih]

theorem colMAD_pos (c : List ℚ) : 0 < colMAD c := by
  unfold colMAD
  dsimp only
  split_ifs with h
  · norm_num
  · push_neg at h
    calc (0 : ℚ) < 1 / 10 ^ 10 := by norm_num
      _ ≤ _ := h

theorem meanQ_nonneg {l : List ℚ} (h : ∀ x ∈ l, 0 ≤ x) : 0 ≤ meanQ l := by
  unfold meanQ
  have hs : 0 ≤ l.sum := List.sum_nonneg h
  positivity

theorem rule_based_scoring_bounds {m : List (List ℚ)} {x : ℚ}
    (hx : x ∈ rule_based_scoring m) : 0 ≤ x ∧ x ≤ 1 := by
  unfold rule_based_scoring at hx
  obtain ⟨row, _, hrow⟩ := List.mem_map.mp hx
  refine ⟨?_, hrow ▸ min_le_right _ _⟩
  rw [← hrow]
  refine le_min ?_ (by norm_num)
  have hdev : ∀ d ∈ (row.zip ((transposeQ m).map medianQ |>.zip
      ((transposeQ m).map colMAD))).map
        (fun p => |p.1 - p.2.1| / p.2.2), 0 ≤ d := by
    intro d hd
    obtain ⟨p, hp, hpd⟩ := List.mem_map.mp hd
    have hmad : p.2.2 ∈ (transposeQ m).map colMAD :=
      (List.mem_zip (List.mem_zip hp).2).2
    obtain ⟨c, _, hc⟩ := List.mem_map.mp hmad
    have hpos : 0 < p.2.2 := hc ▸ colMAD_pos c
    rw [← hpd]
    exact div_nonneg (abs_nonneg _) hpos.le
  have htop : ∀ d ∈ (sortQ ((row.zip ((transposeQ m).map medianQ |>.zip
      ((transposeQ m).map colMAD))).map (fun p => |p.1 - p.2.1| / p.2.2))).drop
        ((sortQ ((row.zip ((transposeQ m).map medianQ |>.zip
          ((transposeQ m).map colMAD))).map (fun p => |p.1 - p.2.1| / p.2.2))).length - 10),
      0 ≤ d := by
    intro d hd
    exact hdev d (mem_sortQ.mp (List.mem_of_mem_drop hd))
  have := meanQ_nonneg htop
  positivity

/-- C3 as amended: on every type subset below `min_samples` no model is
fitted; the combined, isolation-forest and LOF columns are all the
rule-based scores of the raw (unstandardised) subset features, and each
score lies in the unit interval. -/
theorem c3_fallback_amended (ct : String) (tf : List (List ℚ))
    (h : tf.length < min_samples ct) :
    small_subset_scores ct tf
        = some (rule_based_scoring tf, rule_based_scoring tf, rule_based_scoring tf)
      ∧ ∀ x ∈ rule_based_scoring tf, 0 ≤ x ∧ x ≤ 1 := by
  constructor
  · unfold small_subset_scores
    rw [if_pos h]
  · intro x hx
    exact rule_based_scoring_bounds hx

/-- Witness for the amended C3 on a 5-row MLSC subset. -/
theorem c3_fallback_amended_witness :
    small_subset_scores "MLSC" [[0], [0], [0], [0], [2]]
      = some (rule_based_scoring [[0], [0], [0], [0], [2]],
              rule_based_scoring [[0], [0], [0], [0], [2]],
              rule_based_scoring [[0], [0], [0], [0], [2]]) :=
  (c3_fallback_amended "MLSC" [[0], [0], [0], [0], [2]] (by decide)).1

/-- An all-zero feature row of width 45. -/
def zRow45 : List ℚ := List.replicate 45 0

/-- A feature row of width 45 whose last feature is 2. -/
def sRow45 : List ℚ := List.replicate 44 0 ++ [2]

/-- A 5-row MLSC feature subset (5 < 10 = min_samples of MLSC). -/
def mlscSubset : List (List ℚ) := [zRow45, zRow45, zRow45, zRow45, sRow45]

/-- The rows of the standardised subset. -/
def nRow45 : List ℚ := List.replicate 44 0 ++ [-(1/2)]

/-- The last row of the standardised subset. -/
def tRow45 : List ℚ := List.replicate 44 0 ++ [2]

theorem ratSqrt_var : ratSqrt (16/25) = 4/5 := by
  unfold ratSqrt
  have h0 : ((16 : ℚ)/25).num = 16 := by norm_num
  have h1 : ((16 : ℚ)/25).num.toNat = 16 := by
    rw [h0]
    rfl
  have h2 : ((16 : ℚ)/25).den = 25 := by norm_num
  rw [h1, h2]
  have h3 : Nat.sqrt 16 = 4 := by norm_num
  have h4 : Nat.sqrt 25 = 5 := by norm_num
  rw [h3, h4]
  norm_num

set_option maxHeartbeats 2000000 in
theorem standardize_mlscSubset :
    standardizeMatrix mlscSubset = [nRow45, nRow45, nRow45, nRow45, tRow45] := by
  norm_num [standardizeMatrix, mlscSubset, zRow45, sRow45, nRow45, tRow45,
    transposeQ, scaleCol, meanQ, ratSqrt_var, List.replicate]

set_option maxHeartbeats 1000000 in
theorem rb_raw_mlscSubset : (rule_based_scoring mlscSubset).getD 4 0 = 1/25 := by
  have habs : |(2 : ℚ)| = 2 := by
    rw [abs_of_nonneg]
    norm_num
  norm_num [rule_based_scoring, mlscSubset, zRow45, sRow45, transposeQ, medianQ,
    colMAD, meanQ, sortQ, insertQ, List.replicate, habs]

set_option maxHeartbeats 2000000 in
theorem rb_std_mlscSubset :
    (rule_based_scoring (standardizeMatrix mlscSubset)).getD 4 0 = 1/20 := by
  have habs : |(5 : ℚ)/2| = 5/2 := by
    rw [abs_of_nonneg]
    norm_num
  rw [standardize_mlscSubset]
  norm_num [rule_based_scoring, nRow45, tRow45, transposeQ, medianQ,
    colMAD, meanQ, sortQ, insertQ, List.replicate, habs]

/-- C3 counterexample: on a 5-row MLSC subset (below min_samples 10) the
code scores the raw subset, not the standardised one: the last row scores
1/25 = 0.04 on the raw features, while the same formula on the
standardised subset gives 1/20 = 0.05. -/
theorem c3_standardised_counterexample :
    mlscSubset.length < min_samples "MLSC"
      ∧ small_subset_scores "MLSC" mlscSubset
          = some (rule_based_scoring mlscSubset, rule_based_scoring mlscSubset,
                  rule_based_scoring mlscSubset)
      ∧ (rule_based_scoring mlscSubset).getD 4 0 = 1/25
      ∧ (rule_based_scoring (standardizeMatrix mlscSubset)).getD 4 0 = 1/20
      ∧ (rule_based_scoring mlscSubset).getD 4 0
          ≠ (rule_based_scoring (standardizeMatrix mlscSubset)).getD 4 0 := by
  have hlen : mlscSubset.length < min_samples "MLSC" := by decide
  refine ⟨hlen, ?_, rb_raw_mlscSubset, rb_std_mlscSubset, ?_⟩
  · unfold small_subset_scores
    rw [if_pos hlen]
  · rw [rb_raw_mlscSubset, rb_std_mlscSubset]
    norm_num

/-! ## C8: score ranges -/

theorem foldr_min_le {t : List ℚ} : ∀ a x : ℚ, x ∈ a :: t → t.foldr min a ≤ x := by
  induction t with
  | nil =>
      intro a x hx
      have h : x = a := by simpa using hx
      rw [h]
      exact le_rfl
  | cons b t' ih =>
      intro a x hx
      simp only [List.foldr_cons]
      rcases List.mem_cons.mp hx with h1 | hx'
      · rw [h1]
        exact (min_le_right _ _).trans (ih a a (List.mem_cons_self a t'))
      · rcases List.mem_cons.mp hx' with h2 | hx''
        · rw [h2]
          exact min_le_left _ _
        · exact (min_le_right _ _).trans (ih a x (List.mem_cons_of_mem a hx''))

theorem le_foldr_max {t : List ℚ} : ∀ a x : ℚ, x ∈ a :: t → x ≤ t.foldr max a := by
  induction t with
  | nil =>
      intro a x hx
      have h : x = a := by simpa using hx
      rw [h]
      exact le_rfl
  | cons b t' ih =>
      intro a x hx
      simp only [List.foldr_cons]
      rcases List.mem_cons.mp hx with h1 | hx'
      · rw [h1]
        exact (ih a a (List.mem_cons_self a t')).trans (le_max_right _ _)
      · rcases List.mem_cons.mp hx' with h2 | hx''
        · rw [h2]
          exact le_max_left _ _
        · exact (ih a x (List.mem_cons_of_mem a hx'')).trans (le_max_right _ _)

theorem minQ_le_of_mem {x : ℚ} {l : List ℚ} (h : x ∈ l) : minQ l ≤ x := by
  cases l with
  | nil => simp at h
  | cons a t => exact foldr_min_le a x h

theorem le_maxQ_of_mem {x : ℚ} {l : List ℚ} (h : x ∈ l) : x ≤ maxQ l := by
  cases l with
  | nil => simp at h
  | cons a t => exact le_foldr_max a x h

theorem normalize_scores_bounds {l : List ℚ} {x : ℚ}
    (hx : x ∈ normalize_scores l) : 0 ≤ x ∧ x ≤ 1 := by
  unfold normalize_scores at hx
  dsimp only at hx
  split_ifs at hx with h
  · obtain ⟨v, _, hv⟩ := List.mem_map.mp hx
    rw [← hv]
    norm_num
  · push_neg at h
    have hpos : 0 < maxQ l - minQ l := lt_of_lt_of_le (by norm_num) h
    obtain ⟨v, hvl, hv⟩ := List.mem_map.mp hx
    have h1 := minQ_le_of_mem hvl
    have h2 := le_maxQ_of_mem hvl
    rw [← hv]
    constructor
    · exact div_nonneg (by linarith) hpos.le
    · rw [div_le_one hpos]
      linarith

theorem alg_risk_nonneg (row : CertRow) : 0 ≤ alg_risk row := by
  unfold alg_risk ALGORITHM_RISK
  split_ifs <;> norm_num

theorem ks_risk_nonneg (row : CertRow) : 0 ≤ ks_risk row := by
  cases h : row.publicKeySize with
  | none =>
      simp only [ks_risk, h]
      split_ifs <;> norm_num
  | some k =>
      simp only [ks_risk, h]
      split_ifs <;> norm_num

theorem compliance_risk_nonneg (row : CertRow) : 0 ≤ compliance_risk row := by
  unfold compliance_risk
  dsimp only
  split_ifs <;> norm_num

theorem validity_risk_nonneg (row : CertRow) : 0 ≤ validity_risk row := by
  cases h : row.daysUntilExpiry with
  | none => simp only [validity_risk, h]; norm_num
  | some d => simp only [validity_risk, h]; split_ifs <;> norm_num

theorem ext_risk_nonneg (row : CertRow) : 0 ≤ ext_risk row := by
  unfold ext_risk
  refine le_min ?_ (by norm_num)
  split_ifs <;> norm_num

theorem anomaly_risk_nonneg {a : ℚ} (ha : 0 ≤ a) : 0 ≤ anomaly_risk a :=
  pyRound_nonneg 1 (by positivity)

theorem issuer_risk_nonneg {i : ℚ} (hi : 0 ≤ i) : 0 ≤ issuer_risk i :=
  pyRound_nonneg 1 (by positivity)

theorem structural_risk_nonneg {s : ℚ} (hs : 0 ≤ s) : 0 ≤ structural_risk s :=
  pyRound_nonneg 1 (by positivity)

theorem temporal_risk_nonneg (row : CertRow) : 0 ≤ temporal_risk row := by
  unfold temporal_risk
  cases h : row.validityDays with
  | none => norm_num
  | some v =>
      dsimp only
      refine le_min ?_ (by norm_num)
      split_ifs <;> norm_num

theorem dn_risk_nonneg (row : CertRow) : 0 ≤ dn_risk row := by
  unfold dn_risk dn_eval
  dsimp only
  refine le_min ?_ (by norm_num)
  split_ifs <;> norm_num

theorem risk_score_bounds (row : CertRow) {a : ℚ} (ha : 0 ≤ a) :
    0 ≤ risk_score row a ∧ risk_score row a ≤ 100 := by
  unfold risk_score
  refine ⟨le_min ?_ (by norm_num), min_le_right _ _⟩
  have h1 := alg_risk_nonneg row
  have h2 := ks_risk_nonneg row
  have h3 := compliance_risk_nonneg row
  have h4 := validity_risk_nonneg row
  have h5 := ext_risk_nonneg row
  have h6 := anomaly_risk_nonneg ha
  linarith

theorem forensic_score_bounds (row : CertRow) {a s i : ℚ}
    (ha : 0 ≤ a) (hs : 0 ≤ s) (hi : 0 ≤ i) :
    0 ≤ forensic_score row a s i ∧ forensic_score row a s i ≤ 100 := by
  unfold forensic_score
  refine ⟨le_min ?_ (by norm_num), min_le_right _ _⟩
  have hraw : 0 ≤ forensic_raw row a s i := by
    unfold forensic_raw
    have h1 := alg_risk_nonneg row
    have h2 := ks_risk_nonneg row
    have h3 := compliance_risk_nonneg row
    have h4 := validity_risk_nonneg row
    have h5 := ext_risk_nonneg row
    have h6 := anomaly_risk_nonneg ha
    have h7 := issuer_risk_nonneg hi
    have h8 := structural_risk_nonneg hs
    have h9 := temporal_risk_nonneg row
    have h10 := dn_risk_nonneg row
    linarith
  positivity

theorem profiler_anomaly_proxy_nonneg (g : List CertRow) :
    0 ≤ profiler_anomaly_proxy g := by
  apply pyRound_nonneg
  have h1 := (icao_ok_rate_bounds g).2
  have h2 := (expired_rate_bounds g).1
  linarith

theorem lookupProfile_mem :
    ∀ {l : List (String × IssuerProfile)} {s : String} {p : IssuerProfile},
      lookupProfile l s = some p → ∃ q ∈ l, q.2 = p := by
  intro l
  induction l with
  | nil => intro s p h; simp [lookupProfile] at h
  | cons kq rest ih =>
      intro s p h
      unfold lookupProfile at h
      split_ifs at h with hk
      · exact ⟨kq, List.mem_cons_self _ _, Option.some.inj h⟩
      · obtain ⟨q, hq, hq2⟩ := ih h
        exact ⟨q, List.mem_cons_of_mem _ hq, hq2⟩

theorem issuer_profile_score_bounds (p : IssuerProfile) (row : CertRow)
    (hp : 0 ≤ p.anomalyProxy) :
    0 ≤ issuer_profile_score p row ∧ issuer_profile_score p row ≤ 1 := by
  unfold issuer_profile_score
  dsimp only
  refine ⟨le_min ?_ (by norm_num), min_le_right _ _⟩
  have h1 : 0 ≤ (if p.certCount < 3 then (0.15 : ℚ)
      else if p.certCount < 10 then 0.05 else 0) := by
    split_ifs <;> norm_num
  have h2 : 0 ≤ (match row.publicKeySize with
      | some k =>
          if p.avgKeySize > 0 ∧ p.stdKeySize > 0 ∧ k > 0 then
            let z := |k - p.avgKeySize| / p.stdKeySize
            if z > 3 then 0.2 else if z > 2 then 0.1 else 0
          else 0
      | Option.none => (0 : ℚ)) := by
    cases h : row.publicKeySize with
    | none => norm_num
    | some k =>
        dsimp only
        split_ifs <;> norm_num
  have h3 : 0 ≤ (if pyOrEmptyStr row.signatureAlgorithm ≠ ""
        ∧ pyOrEmptyStr row.signatureAlgorithm ≠ p.dominantAlgorithm
        ∧ p.algorithmDiversity ≤ 2 then (0.15 : ℚ) else 0) := by
    split_ifs <;> norm_num
  have h4 : 0 ≤ p.anomalyProxy * 0.2 := by positivity
  have h5 : 0 ≤ (if pyOrEmptyStr row.countryCode ≠ ""
        ∧ pyOrEmptyStr row.countryCode ≠ p.dominantCountry
        ∧ p.countryCount = 1 then (0.15 : ℚ) else 0) := by
    split_ifs <;> norm_num
  exact add_nonneg (add_nonneg (add_nonneg (add_nonneg h1 h2) h3) h4) h5

theorem issuer_row_score_bounds (profiles : List (String × IssuerProfile))
    (row : CertRow) (hpro : ∀ q ∈ profiles, 0 ≤ q.2.anomalyProxy) :
    0 ≤ issuer_row_score profiles row ∧ issuer_row_score profiles row ≤ 1 := by
  unfold issuer_row_score
  split_ifs with h
  · norm_num
  · cases hdn : row.issuerDn with
    | str s =>
        dsimp only
        cases hl : lookupProfile profiles s with
        | none =>
            dsimp only
            norm_num
        | some p =>
            dsimp only
            obtain ⟨q, hq, hq2⟩ := lookupProfile_mem hl
            exact issuer_profile_score_bounds p row (hq2 ▸ hpro q hq)
    | none => dsimp only; norm_num
    | nan => dsimp only; norm_num
    | bool b => dsimp only; norm_num
    | int n => dsimp only; norm_num

theorem compute_issuer_anomaly_scores_bounds {df : List CertRow} {z : ℚ}
    (hz : z ∈ compute_issuer_anomaly_scores df) : 0 ≤ z ∧ z ≤ 1 := by
  unfold compute_issuer_anomaly_scores at hz
  dsimp only at hz
  split_ifs at hz with h
  · obtain ⟨r, _, hr⟩ := List.mem_map.mp hz
    rw [← hr]
    norm_num
  · obtain ⟨r, _, hr⟩ := List.mem_map.mp hz
    rw [← hr]
    apply issuer_row_score_bounds
    intro q hq
    unfold build_issuer_profiles at hq
    obtain ⟨k, _, hk⟩ := List.mem_map.mp hq
    rw [← hk]
    exact profiler_anomaly_proxy_nonneg _

/-- C8: every normalised model score, every rule-based fallback score,
every combined score, every structural score and every issuer anomaly
score lies in the unit interval, and both composite risk scores lie in
`[0, 100]` (for anomaly, structural and issuer inputs that are themselves
nonnegative, as produced upstream). -/
theorem c8_score_ranges
    (l : List ℚ) (x : ℚ) (hx : x ∈ normalize_scores l)
    (m : List (List ℚ)) (y : ℚ) (hy : y ∈ rule_based_scoring m)
    (f lo : ℚ) (hf0 : 0 ≤ f) (hf1 : f ≤ 1) (hlo0 : 0 ≤ lo) (hlo1 : lo ≤ 1)
    (df : List CertRow) (z : ℚ) (hz : z ∈ compute_issuer_anomaly_scores df)
    (row : CertRow) (a s i : ℚ) (ha : 0 ≤ a) (hs : 0 ≤ s) (hi : 0 ≤ i) :
    (0 ≤ x ∧ x ≤ 1) ∧ (0 ≤ y ∧ y ≤ 1)
      ∧ (0 ≤ combined_score f lo ∧ combined_score f lo ≤ 1)
      ∧ (0 ≤ (check_extension_compliance row).structuralScore
          ∧ (check_extension_compliance row).structuralScore ≤ 1)
      ∧ (0 ≤ z ∧ z ≤ 1)
      ∧ (0 ≤ risk_score row a ∧ risk_score row a ≤ 100)
      ∧ (0 ≤ forensic_score row a s i ∧ forensic_score row a s i ≤ 100) := by
  refine ⟨normalize_scores_bounds hx, rule_based_scoring_bounds hy, ?_, ?_,
    compute_issuer_anomaly_scores_bounds hz, risk_score_bounds row ha,
    forensic_score_bounds row ha hs hi⟩
  · unfold combined_score
    constructor <;> nlinarith
  · rw [structuralScore_eq row]
    refine ⟨le_min (by positivity) (by norm_num), min_le_right _ _⟩

/-- Witness for C8 at concrete scores and a default row. -/
theorem c8_score_ranges_witness :
    (0 ≤ risk_score ({} : CertRow) 0 ∧ risk_score ({} : CertRow) 0 ≤ 100)
      ∧ (0 ≤ forensic_score ({} : CertRow) 0 0 0
          ∧ forensic_score ({} : CertRow) 0 0 0 ≤ 100) := by
  have hx : (0 : ℚ) ∈ normalize_scores [0, 1] := by
    norm_num [normalize_scores, minQ, maxQ]
  have hy : (0 : ℚ) ∈ rule_based_scoring [[0]] := by
    norm_num [rule_based_scoring, transposeQ, medianQ, colMAD, meanQ, sortQ, insertQ]
  have hz : (0 : ℚ) ∈ compute_issuer_anomaly_scores [({} : CertRow)] := by
    simp [compute_issuer_anomaly_scores, build_issuer_profiles, issuerKeys, firstDedup]
  have h := c8_score_ranges [0, 1] 0 hx [[0]] 0 hy (1/2) (1/2)
    (by norm_num) (by norm_num) (by norm_num) (by norm_num)
    [({} : CertRow)] 0 hz ({} : CertRow) 0 0 0 le_rfl le_rfl le_rfl
  exact ⟨h.2.2.2.2.2.1, h.2.2.2.2.2.2⟩

end ICAOPkd
